import Mathlib

/-!
Shallow embedding of the `minipool` crate (src/lib.rs): a fixed-size
thread pool with a pluggable balancer, a round-robin default, a
busy-polling join, and a polling timeout supervisor.

Modelling conventions:
- A Rust panic (from `unwrap` / `expect` / out-of-bounds indexing) is the
  `panic` constructor of `PanicOr`; normal return is `ok`.
- A queue-producer handle (`std::sync::mpsc::Sender`) is recorded by
  whether its channel is still open (`true` = the worker's receiving end
  is alive and `send` succeeds; `false` = the channel is closed and
  `send` returns `Err`).
- A worker thread handle is recorded by a numeric id; whether a thread
  has finished at a given poll round is an environment function
  `finished : Nat → Nat → Bool` (round, thread id), since thread
  completion is decided outside the pool's code.
- The busy-wait loops of `join_all` and of the timeout supervisor are
  unfolded with explicit fuel: `some t` means the loop exited at poll
  round `t`, `none` that it was still spinning after `fuel` rounds.
-/

namespace Minipool

/-- Outcome of a Rust computation that may panic: either a panic with its
message, or a normal result. -/
inductive PanicOr (α : Type) where
  | panic (msg : String) : PanicOr α
  | ok (a : α) : PanicOr α
  deriving DecidableEq, Repr

/-- Model of `MiniPool` (lib.rs 103-112): the queue-producer handles
(`senders`, each recorded by whether its channel is still open), the
worker thread handles (`threads`, recorded by id), and the
`DefaultBalancer` cursor (`cursor`, the `Cell<usize>` of lib.rs 81-83). -/
structure MiniPool where
  senders : List Bool
  threads : List Nat
  cursor : Nat
  deriving DecidableEq, Repr

/-- `DefaultBalancer::index` (lib.rs 86-91): if the cursor equals
`state.threads.len()` it is reset to 0; the (possibly reset) cursor is
returned and the cell is set to that value plus one. The result pairs
the returned index with the cursor value stored after the call. -/
def defaultBalancerIndex (cursor n : Nat) : Nat × Nat :=
  let c := if cursor = n then 0 else cursor
  (c, c + 1)

/-- `MiniPool::spawn` (lib.rs 146-149): asks the balancer for an index,
then runs `self.senders[index].send(Box::new(func)).unwrap()`. Indexing
`senders` out of bounds panics; `send` on a closed channel returns
`Err(SendError)`, which `unwrap` turns into a panic. On success the
result carries the pool with its advanced cursor and the worker index
the task was enqueued on. -/
def MiniPool.spawn (p : MiniPool) : PanicOr (MiniPool × Nat) :=
  let r := defaultBalancerIndex p.cursor p.threads.length
  match p.senders[r.1]? with
  | none => .panic "index out of bounds"
  | some isOpen =>
    if isOpen then .ok ({ p with cursor := r.2 }, r.1) else .panic "SendError unwrap"

/-- `MiniPool::spawn_with_timeout` (lib.rs 167-176): its entire effect on
the pool is the single `self.spawn(supervisor)` call; the body of the
supervising closure is modelled separately by `superLoop`. -/
def MiniPool.spawnWithTimeout (p : MiniPool) : PanicOr (MiniPool × Nat) :=
  p.spawn

/-- The supervising closure dispatched by `spawn_with_timeout`
(lib.rs 168-175): after starting the real task on a separate thread via
`std::thread::spawn(func)`, it loops, breaking when the elapsed time
exceeds the timeout or when the inner thread reports finished. The loop
performs no other operation: in particular it never joins, interrupts or
cancels the inner thread. `elapsed k` and `fin k` are the two
observations made at poll iteration `k`; `some k` means the loop exited
at iteration `k`. -/
def superLoop (timeout : Nat) (elapsed : Nat → Nat) (fin : Nat → Bool) :
    Nat → Nat → Option Nat
  | 0, _ => none
  | fuel + 1, k =>
    if timeout < elapsed k then some k
    else if fin k then some k
    else superLoop timeout elapsed fin fuel (k + 1)

/-- The `self.senders.clear()` step of `MiniPool::join_all` (lib.rs 199):
every queue-producer handle is dropped, closing every worker's channel;
nothing else in the pool is touched. -/
def MiniPool.joinAllState (p : MiniPool) : MiniPool :=
  { p with senders := [] }

/-- The polling loop of `MiniPool::join_all` (lib.rs 201-210): each round
it scans every thread handle with `is_finished()` and breaks only when
all report finished. `finished t i` is thread `i` at poll round `t`. -/
def joinLoop (finished : Nat → Nat → Bool) (threads : List Nat) :
    Nat → Nat → Option Nat
  | 0, _ => none
  | fuel + 1, t =>
    if threads.all (fun i => finished t i) then some t
    else joinLoop finished threads fuel (t + 1)

/-- `MiniPool::join_all` (lib.rs 197-211): first clear the senders, then
poll every worker's finished flag in a tight loop until all report
finished. The result pairs the pool after the clear with the round at
which the loop exited. -/
def MiniPool.joinAll (p : MiniPool) (finished : Nat → Nat → Bool) (fuel : Nat) :
    MiniPool × Option Nat :=
  (p.joinAllState, joinLoop finished p.joinAllState.threads fuel 0)

/-- Result of `MiniPoolBuilder::build`: either a panic, or the `Ok` value
of its `Result`. The `Err` branch of the Rust `Result` is never
constructed anywhere in lib.rs, so the model has no error constructor
besides the panics. -/
inductive BuildResult where
  | panicked (msg : String) : BuildResult
  | built (p : MiniPool) : BuildResult
  deriving DecidableEq, Repr

/-- The worker-creation loop of `build` (lib.rs 56-75): for each index,
create a channel and push its sender, then spawn the worker thread with
`.unwrap()`, which panics when the OS refuses the thread. `spawnOk i`
says whether creating thread `i` succeeds. On success the accumulated
senders (all open) and thread ids are returned. -/
def buildWorkers (spawnOk : Nat → Bool) : List Nat → PanicOr (List Bool × List Nat)
  | [] => .ok ([], [])
  | i :: rest =>
    if spawnOk i then
      match buildWorkers spawnOk rest with
      | .ok st => .ok (true :: st.1, i :: st.2)
      | .panic m => .panic m
    else .panic "thread spawn failed"

/-- `MiniPoolBuilder::build` (lib.rs 50-78). Rust evaluates the argument
of `unwrap_or` eagerly, so `available_parallelism().expect(..)` runs
even when an explicit count was configured: whenever detection fails
(`detected = none`), `build` panics with the `expect` message. Otherwise
the thread count is the explicit count if given, else the detected one,
and `count` channel/thread pairs are created (panicking if the OS
refuses a thread); the only normal return is `Ok` with the complete
pool, whose balancer cursor starts at 0. -/
def build (countThreads : Option Nat) (detected : Option Nat)
    (spawnOk : Nat → Bool) : BuildResult :=
  match detected with
  | none => .panicked "Not found count of threads"
  | some d =>
    match buildWorkers spawnOk (List.range (countThreads.getD d)) with
    | .panic m => .panicked m
    | .ok st => .built { senders := st.1, threads := st.2, cursor := 0 }

/-- The pool `build` produces for an explicit count `n` when every thread
spawn succeeds: `n` open senders, `n` worker threads, cursor 0. -/
def freshPool (n : Nat) : MiniPool :=
  { senders := List.replicate n true, threads := List.range n, cursor := 0 }

/-- `m` successive `spawn` calls (lib.rs 146-149) from one thread,
collecting the worker index each task was enqueued on; the first panic
aborts the sequence. -/
def spawnSeq : MiniPool → Nat → PanicOr (MiniPool × List Nat)
  | p, 0 => .ok (p, [])
  | p, m + 1 =>
    match p.spawn with
    | .panic s => .panic s
    | .ok q =>
      match spawnSeq q.1 m with
      | .panic s => .panic s
      | .ok r => .ok (r.1, q.2 :: r.2)

/-- The index sequence the default balancer produces from cursor `c` over
a pool of `n` workers, across `m` calls. -/
def rrIndices (n : Nat) : Nat → Nat → List Nat
  | _, 0 => []
  | c, m + 1 =>
    (defaultBalancerIndex c n).1 :: rrIndices n (defaultBalancerIndex c n).2 m

/-- A pool of one worker whose queue is already closed (its worker thread
died, or the sender was dropped): the shape a pool has when delivery to
the selected worker must fail. -/
def closedPool : MiniPool :=
  { senders := [false], threads := [0], cursor := 0 }

/-! ## Helper lemmas -/

/-- Looking into a replicated list below its length succeeds. -/
theorem replicate_get? (a : Bool) (n i : Nat) (h : i < n) :
    (List.replicate n a)[i]? = some a := by
  rw [List.getElem?_eq_getElem (by simpa using h)]
  simp

/-- The worker-creation loop, resolved: it panics exactly when some
requested thread fails to spawn, and otherwise returns one open sender
per index together with the index list itself. -/
theorem buildWorkers_eq (f : Nat → Bool) (l : List Nat) :
    buildWorkers f l =
      if l.all f then .ok (List.replicate l.length true, l)
      else .panic "thread spawn failed" := by
  induction l with
  | nil => rfl
  | cons i rest ih =>
    by_cases hi : f i
    · simp only [buildWorkers, ih, List.all_cons, hi, Bool.true_and]
      by_cases hr : rest.all f
      · simp [hr, List.replicate]
      · simp [hr]
    · simp [buildWorkers, hi]

/-- If the join polling loop exits at round `t`, every thread reported
finished at round `t`. -/
theorem joinLoop_some (finished : Nat → Nat → Bool) (threads : List Nat) :
    ∀ (fuel t0 t : Nat), joinLoop finished threads fuel t0 = some t →
      threads.all (fun i => finished t i) = true
  | 0, _, _, h => by simp [joinLoop] at h
  | fuel + 1, t0, t, h => by
    by_cases hall : threads.all (fun i => finished t0 i)
    · simp only [joinLoop, hall, if_pos] at h
      cases h
      exact hall
    · simp only [joinLoop, hall, if_neg, not_false_iff] at h
      exact joinLoop_some finished threads fuel (t0 + 1) t h

/-- If at every round some thread is still unfinished, the join polling
loop never exits, whatever its fuel. -/
theorem joinLoop_none (finished : Nat → Nat → Bool) (threads : List Nat)
    (hnever : ∀ t, threads.all (fun i => finished t i) = false) :
    ∀ (fuel t0 : Nat), joinLoop finished threads fuel t0 = none
  | 0, _ => rfl
  | fuel + 1, t0 => by
    simp only [joinLoop, hnever t0, Bool.false_eq_true, if_false]
    exact joinLoop_none finished threads hnever fuel (t0 + 1)

/-- If the supervisor loop exits at iteration `k`, then at `k` the
deadline had fired or the inner thread had finished, and at every
earlier polled iteration neither condition held. -/
theorem superLoop_exit (timeout : Nat) (elapsed : Nat → Nat) (fin : Nat → Bool) :
    ∀ (fuel k0 k : Nat), superLoop timeout elapsed fin fuel k0 = some k →
      (timeout < elapsed k ∨ fin k = true) ∧ k0 ≤ k ∧
      ∀ j, k0 ≤ j → j < k → elapsed j ≤ timeout ∧ fin j = false
  | 0, _, _, h => by simp [superLoop] at h
  | fuel + 1, k0, k, h => by
    by_cases h1 : timeout < elapsed k0
    · simp only [superLoop, h1, if_pos] at h
      cases h
      exact ⟨Or.inl h1, Nat.le_refl _, fun j hj hj2 => absurd (Nat.lt_of_le_of_lt hj hj2) (Nat.lt_irrefl _)⟩
    · by_cases h2 : fin k0
      · simp only [superLoop, h1, if_neg, not_false_iff, h2, if_pos] at h
        cases h
        exact ⟨Or.inr h2, Nat.le_refl _, fun j hj hj2 => absurd (Nat.lt_of_le_of_lt hj hj2) (Nat.lt_irrefl _)⟩
      · simp only [superLoop, h1, h2, if_neg, not_false_iff, Bool.false_eq_true, if_false] at h
        obtain ⟨hc, hk, hpre⟩ := superLoop_exit timeout elapsed fin fuel (k0 + 1) k h
        refine ⟨hc, Nat.le_of_succ_le hk, fun j hj hj2 => ?_⟩
        rcases Nat.eq_or_lt_of_le hj with hj1 | hj1
        · cases hj1
          exact ⟨Nat.le_of_not_lt h1, by simpa using h2⟩
        · exact hpre j hj1 hj2

/-- The default balancer produces one index per call. -/
theorem rrIndices_length (n : Nat) : ∀ (c m : Nat), (rrIndices n c m).length = m
  | _, 0 => rfl
  | c, m + 1 => by
    simp only [rrIndices, List.length_cons, rrIndices_length n _ m]

/-- Advancing the default balancer by one step commutes with the modulus:
the wrapped successor of an index `a < n`, shifted by `i`, agrees with
`a + (i + 1)` modulo `n`. -/
theorem rr_step_mod (n a i : Nat) :
    ((if a + 1 = n then 0 else a + 1) + i) % n = (a + (i + 1)) % n := by
  by_cases hwrap : a + 1 = n
  · rw [if_pos hwrap, Nat.zero_add]
    have h1 : a + (i + 1) = n + i := by omega
    rw [h1, Nat.add_mod_left]
  · rw [if_neg hwrap]
    congr 1
    omega

/-- Closed form of the default balancer's index stream: starting from a
cursor `c ≤ n` over `n > 0` workers, the `i`-th produced index is the
first index plus `i`, modulo `n`. -/
theorem rrIndices_get? (n : Nat) (hn : 0 < n) :
    ∀ (m c i : Nat), c ≤ n → i < m →
      (rrIndices n c m)[i]? = some (((if c = n then 0 else c) + i) % n)
  | 0, _, i, _, hi => absurd hi (Nat.not_lt_zero i)
  | m + 1, c, 0, hc, _ => by
    have hlt : (if c = n then 0 else c) < n := by
      by_cases h : c = n
      · simpa [h] using hn
      · simp only [h, if_false]
        exact Nat.lt_of_le_of_ne hc h
    simp [rrIndices, defaultBalancerIndex, Nat.mod_eq_of_lt hlt]
  | m + 1, c, i + 1, hc, hi => by
    have hlt : (if c = n then 0 else c) < n := by
      by_cases h : c = n
      · simpa [h] using hn
      · simp only [h, if_false]
        exact Nat.lt_of_le_of_ne hc h
    have hrec := rrIndices_get? n hn m ((defaultBalancerIndex c n).2) i
      (by simpa [defaultBalancerIndex] using hlt) (Nat.lt_of_succ_lt_succ hi)
    have h2 : (defaultBalancerIndex c n).2 = (if c = n then 0 else c) + 1 := rfl
    rw [h2] at hrec
    simp only [rrIndices, List.getElem?_cons_succ, h2, hrec]
    exact congrArg some (rr_step_mod n _ i)

/-- Resolving `m` successive spawns on a healthy pool: with `n > 0`
workers, all queues open and cursor `c ≤ n`, every delivery succeeds and
the enqueued indices are exactly the balancer's stream from `c`. -/
theorem spawnSeq_rr (n : Nat) (hn : 0 < n) :
    ∀ (m : Nat) (p : MiniPool), p.senders = List.replicate n true →
      p.threads.length = n → p.cursor ≤ n →
      ∃ q : MiniPool, spawnSeq p m = .ok (q, rrIndices n p.cursor m) ∧
        q.senders = p.senders ∧ q.threads = p.threads ∧ q.cursor ≤ n
  | 0, p, hs, ht, hc => ⟨p, rfl, rfl, rfl, hc⟩
  | m + 1, p, hs, ht, hc => by
    have hlt : (if p.cursor = n then 0 else p.cursor) < n := by
      by_cases h : p.cursor = n
      · simpa [h] using hn
      · simp only [h, if_false]
        exact Nat.lt_of_le_of_ne hc h
    have hidx : (defaultBalancerIndex p.cursor p.threads.length).1 =
        if p.cursor = n then 0 else p.cursor := by
      simp [defaultBalancerIndex, ht]
    have hget : p.senders[(defaultBalancerIndex p.cursor p.threads.length).1]? =
        some true := by
      rw [hs, hidx]
      exact replicate_get? true n _ hlt
    have hspawn : p.spawn = .ok
        ({ p with cursor := (defaultBalancerIndex p.cursor p.threads.length).2 },
          (defaultBalancerIndex p.cursor p.threads.length).1) := by
      simp [MiniPool.spawn, hget]
    have hc2 : (defaultBalancerIndex p.cursor p.threads.length).2 ≤ n := by
      simp only [defaultBalancerIndex, ht]
      omega
    obtain ⟨q, hq, hqs, hqt, hqc⟩ := spawnSeq_rr n hn m
      { p with cursor := (defaultBalancerIndex p.cursor p.threads.length).2 }
      hs ht hc2
    refine ⟨q, ?_, by simpa using hqs, by simpa using hqt, hqc⟩
    simp only [spawnSeq, hspawn, hq]
    have : rrIndices n p.cursor (m + 1) =
        (defaultBalancerIndex p.cursor n).1 ::
          rrIndices n (defaultBalancerIndex p.cursor n).2 m := rfl
    rw [this]
    have hswap : (defaultBalancerIndex p.cursor p.threads.length) =
        (defaultBalancerIndex p.cursor n) := by rw [ht]
    rw [hswap]

/-- Shape of a successful `build`: the only normal return is `Ok` with
`count` open senders, the `count` worker ids, and cursor 0, and it occurs
exactly when detection succeeded and every thread spawn succeeded. -/
theorem build_built_iff (ct d : Option Nat) (f : Nat → Bool) (p : MiniPool) :
    build ct d f = .built p ↔
      ∃ k, d = some k ∧ (List.range (ct.getD k)).all f = true ∧
        p = { senders := List.replicate (ct.getD k) true,
              threads := List.range (ct.getD k), cursor := 0 } := by
  cases d with
  | none => simp [build]
  | some k =>
    have hb := buildWorkers_eq f (List.range (ct.getD k))
    by_cases hall : (List.range (ct.getD k)).all f
    · rw [if_pos hall] at hb
      rw [List.length_range] at hb
      simp only [build, hb]
      constructor
      · intro h
        cases h
        exact ⟨k, rfl, hall, rfl⟩
      · rintro ⟨k2, hk2, -, hp⟩
        cases hk2
        rw [hp]
    · rw [if_neg hall] at hb
      simp only [build, hb]
      constructor
      · intro h
        cases h
      · rintro ⟨k2, hk2, hall2, -⟩
        cases hk2
        exact absurd hall2 (by simpa using hall)

/-! ## Claim theorems -/

/-- Claim C1, counterexample: on a pool whose single worker's queue is
already closed, `spawn` does not return a `DeliveryError` value — it
panics (the `unwrap` on the `SendError` returned by `send`), so the
claim that the call surfaces the failure as an error value and never
aborts by panicking is false on the code. -/
theorem spawn_closed_queue_cex :
    closedPool.spawn = PanicOr.panic "SendError unwrap" := rfl

/-- Claim C1, amended: whenever the balancer-selected worker's queue is
closed, `spawn` panics via `unwrap` on the failed `send`. The failure is
synchronous and never silently dropped, and the call never hangs, but no
error value is returned to the caller: the call aborts by panicking. -/
theorem spawn_closed_queue_panics (p : MiniPool)
    (h : p.senders[(defaultBalancerIndex p.cursor p.threads.length).1]? =
      some false) :
    p.spawn = PanicOr.panic "SendError unwrap" := by
  simp [MiniPool.spawn, h]

/-- Witness for `spawn_closed_queue_panics` at a two-worker pool whose
second queue is closed and whose cursor selects it. -/
theorem spawn_closed_queue_panics_witness :
    MiniPool.spawn { senders := [true, false], threads := [0, 1], cursor := 1 } =
      PanicOr.panic "SendError unwrap" :=
  spawn_closed_queue_panics
    { senders := [true, false], threads := [0, 1], cursor := 1 } rfl

/-- Claim C2, counterexample: when hardware parallelism cannot be
detected and no explicit count was given, `build` does not return the
`Err` branch of its `Result` — it panics with the `expect` message, so
the claim that it fails by returning a `ConstructionError` value and
does not panic is false on the code. -/
theorem build_detect_failure_cex :
    build none none (fun _ => true) =
      BuildResult.panicked "Not found count of threads" := rfl

/-- Claim C2, amended: construction is all-or-nothing, but by panic, not
by error value. If parallelism detection fails `build` panics (even when
an explicit count was configured, because the default is computed
eagerly); if the OS refuses any worker thread `build` panics; the only
normal return is `Ok` with the complete pool, so the `Err` branch of the
`Result` is never produced. -/
theorem build_panics_never_errs (ct d : Option Nat) (f : Nat → Bool) :
    (d = none → build ct d f = .panicked "Not found count of threads") ∧
    (∀ k, d = some k → (List.range (ct.getD k)).all f = false →
      build ct d f = .panicked "thread spawn failed") ∧
    (∀ p, build ct d f = .built p →
      ∃ k, d = some k ∧ (List.range (ct.getD k)).all f = true ∧
        p.senders.length = ct.getD k ∧ p.threads.length = ct.getD k) := by
  refine ⟨?_, ?_, ?_⟩
  · intro hd
    rw [hd]
    rfl
  · intro k hd hall
    rw [hd]
    have hb := buildWorkers_eq f (List.range (ct.getD k))
    rw [hall] at hb
    simp only [Bool.false_eq_true, if_false] at hb
    simp [build, hb]
  · intro p hp
    obtain ⟨k, hk, hall, hshape⟩ := (build_built_iff ct d f p).mp hp
    exact ⟨k, hk, hall, by simp [hshape], by simp [hshape]⟩

/-- Witness for `build_panics_never_errs`: an explicit count of 3 was
configured, detection fails, and `build` still panics with the `expect`
message instead of returning an error value. -/
theorem build_panics_never_errs_witness :
    build (some 3) none (fun _ => true) =
      BuildResult.panicked "Not found count of threads" :=
  (build_panics_never_errs (some 3) none (fun _ => true)).1 rfl

/-- Claim C3: with the default round-robin balancer, on a freshly built
pool of `n > 0` workers, `m` submissions from one thread all succeed and
the `i`-th submission (0-indexed) is enqueued on worker `i % n`. -/
theorem spawn_round_robin (n m : Nat) (hn : 0 < n) :
    ∃ (q : MiniPool) (idxs : List Nat),
      spawnSeq (freshPool n) m = .ok (q, idxs) ∧ idxs.length = m ∧
        ∀ i, i < m → idxs[i]? = some (i % n) := by
  obtain ⟨q, hq, -, -, -⟩ := spawnSeq_rr n hn m (freshPool n) rfl
    (by simp [freshPool]) (Nat.zero_le n)
  refine ⟨q, rrIndices n (freshPool n).cursor m, hq, rrIndices_length n _ m, ?_⟩
  intro i hi
  have h := rrIndices_get? n hn m 0 i (Nat.zero_le n) hi
  simpa using h

/-- Witness for `spawn_round_robin` at two workers and five submissions. -/
theorem spawn_round_robin_witness :
    ∃ (q : MiniPool) (idxs : List Nat),
      spawnSeq (freshPool 2) 5 = .ok (q, idxs) ∧ idxs.length = 5 ∧
        ∀ i, i < 5 → idxs[i]? = some (i % 2) :=
  spawn_round_robin 2 5 (by decide)

/-- Claim C4, counterexample: on a one-worker pool, after the very first
call the stored cursor is 1, which is the worker count itself and hence
not in the claimed range `[0, workerCount)`: the code wraps the cursor
to 0 only at the start of the next call, not when storing it. -/
theorem default_cursor_cex :
    (defaultBalancerIndex 0 1).2 = 1 ∧ ¬ (defaultBalancerIndex 0 1).2 < 1 := by
  decide

/-- Claim C4, amended: with `workerCount > 0` and a stored cursor in
`[0, workerCount]`, each call returns an index in `[0, workerCount)` and
stores that index plus one, so the stored cursor after the call lies in
`[1, workerCount]` — it may equal `workerCount`, and is wrapped to 0
only at the beginning of the next call. -/
theorem default_cursor_bounds (c n : Nat) (hn : 0 < n) (hc : c ≤ n) :
    (defaultBalancerIndex c n).1 < n ∧
    (defaultBalancerIndex c n).2 = (defaultBalancerIndex c n).1 + 1 ∧
    1 ≤ (defaultBalancerIndex c n).2 ∧ (defaultBalancerIndex c n).2 ≤ n := by
  have hlt : (if c = n then 0 else c) < n := by
    by_cases h : c = n
    · simpa [h] using hn
    · simp only [h, if_false]
      exact Nat.lt_of_le_of_ne hc h
  exact ⟨hlt, rfl, Nat.succ_le_succ (Nat.zero_le _), hlt⟩

/-- Witness for `default_cursor_bounds` at cursor 0 over two workers. -/
theorem default_cursor_bounds_witness :
    (defaultBalancerIndex 0 2).1 < 2 ∧
    (defaultBalancerIndex 0 2).2 = (defaultBalancerIndex 0 2).1 + 1 ∧
    1 ≤ (defaultBalancerIndex 0 2).2 ∧ (defaultBalancerIndex 0 2).2 ≤ 2 :=
  default_cursor_bounds 0 2 (by decide) (by decide)

/-- Claim C5: `join_all` first clears the senders (closing every
queue-producer handle), and its polling loop returns only at a round
where every worker thread reports finished; if some worker never reports
finished, the loop never exits, whatever its fuel. -/
theorem join_all_closes_then_waits (p : MiniPool)
    (finished : Nat → Nat → Bool) (fuel : Nat) :
    (p.joinAll finished fuel).1.senders = [] ∧
    (∀ t, (p.joinAll finished fuel).2 = some t →
      p.threads.all (fun i => finished t i) = true) ∧
    ((∃ w ∈ p.threads, ∀ t, finished t w = false) →
      (p.joinAll finished fuel).2 = none) := by
  refine ⟨rfl, ?_, ?_⟩
  · intro t ht
    exact joinLoop_some finished p.threads fuel 0 t ht
  · rintro ⟨w, hw, hnever⟩
    apply joinLoop_none
    intro t
    show (p.threads.all fun i => finished t i) = false
    cases hall : p.threads.all (fun i => finished t i) with
    | false => rfl
    | true =>
      have hwt := List.all_eq_true.mp hall w hw
      rw [hnever t] at hwt
      cases hwt

/-- Witness for `join_all_closes_then_waits`: on a one-worker pool whose
thread reports finished immediately, the loop exits at round 0, and at
that round every thread indeed reports finished. -/
theorem join_all_closes_then_waits_witness :
    ((freshPool 1).joinAll (fun _ _ => true) 1).1.senders = [] ∧
    (freshPool 1).threads.all (fun _ => true) = true := by
  have h := join_all_closes_then_waits (freshPool 1) (fun _ _ => true) 1
  exact ⟨h.1, h.2.1 0 rfl⟩

/-- Claim C6: `spawn_with_timeout` dispatches the supervisor as an
ordinary task through `spawn` (its whole effect on the pool is the one
`spawn` call), and the supervisor loop exits exactly at the first poll
iteration where the deadline has fired or the inner thread has finished;
when the inner thread has not finished at the exit, it is the deadline
that fired, and the supervisor does nothing further — in particular it
never joins, interrupts or cancels the inner thread, whose completion
flag is an input the loop only reads. -/
theorem spawn_with_timeout_supervises (p : MiniPool) (timeout : Nat)
    (elapsed : Nat → Nat) (fin : Nat → Bool) (fuel k : Nat) :
    p.spawnWithTimeout = p.spawn ∧
    (superLoop timeout elapsed fin fuel 0 = some k →
      (timeout < elapsed k ∨ fin k = true) ∧
      (∀ j, j < k → elapsed j ≤ timeout ∧ fin j = false) ∧
      (fin k = false → timeout < elapsed k)) := by
  refine ⟨rfl, fun h => ?_⟩
  obtain ⟨hc, -, hpre⟩ := superLoop_exit timeout elapsed fin fuel 0 k h
  refine ⟨hc, fun j hj => hpre j (Nat.zero_le j) hj, fun hfk => ?_⟩
  rcases hc with h1 | h1
  · exact h1
  · rw [hfk] at h1
    cases h1

/-- Witness for `spawn_with_timeout_supervises`: deadline 2, elapsed time
equal to the iteration count, inner task never finishing — the loop
exits at iteration 3, the first one past the deadline. -/
theorem spawn_with_timeout_supervises_witness :
    (freshPool 1).spawnWithTimeout = (freshPool 1).spawn ∧
    ((2 < 3 ∨ (fun _ : Nat => false) 3 = true) ∧
      (∀ j, j < 3 → j ≤ 2 ∧ (fun _ : Nat => false) j = false) ∧
      ((fun _ : Nat => false) 3 = false → 2 < 3)) := by
  have h := spawn_with_timeout_supervises (freshPool 1) 2
    (fun j => j) (fun _ => false) 10 3
  exact ⟨h.1, h.2 rfl⟩

/-- Claim C7: whenever `build` with an explicit thread count `n > 0`
returns a pool, that pool holds exactly `n` worker threads and exactly
`n` queue-producer handles. -/
theorem build_explicit_count (n : Nat) (hn : 0 < n) (d : Option Nat)
    (f : Nat → Bool) (p : MiniPool)
    (h : build (some n) d f = .built p) :
    p.threads.length = n ∧ p.senders.length = n := by
  obtain ⟨k, -, -, hshape⟩ := (build_built_iff (some n) d f p).mp h
  constructor
  · simp [hshape]
  · simp [hshape]

/-- Witness for `build_explicit_count`: an explicit count of 2 with
successful detection and spawns yields a pool of 2 threads and
2 senders. -/
theorem build_explicit_count_witness :
    (freshPool 2).threads.length = 2 ∧ (freshPool 2).senders.length = 2 :=
  build_explicit_count 2 (by decide) (some 8) (fun _ => true) (freshPool 2) rfl

/-- Claim C8: the worker thread list is fixed after construction — a
successful `spawn` leaves it unchanged, `spawn_with_timeout` (being the
same pool operation) leaves it unchanged, and `join_all` clears only the
senders, leaving the thread list unchanged. -/
theorem pool_threads_fixed (p q : MiniPool) (i : Nat)
    (finished : Nat → Nat → Bool) (fuel : Nat) :
    (p.spawn = .ok (q, i) → q.threads = p.threads) ∧
    (p.spawnWithTimeout = .ok (q, i) → q.threads = p.threads) ∧
    (p.joinAll finished fuel).1.threads = p.threads := by
  have hspawn : p.spawn = .ok (q, i) → q.threads = p.threads := by
    intro h
    simp only [MiniPool.spawn] at h
    cases hget : p.senders[(defaultBalancerIndex p.cursor p.threads.length).1]? with
    | none =>
      rw [hget] at h
      cases h
    | some b =>
      rw [hget] at h
      cases b with
      | false => simp at h
      | true =>
        simp only [if_true] at h
        cases h
        rfl
  exact ⟨hspawn, hspawn, rfl⟩

/-- Witness for `pool_threads_fixed`: one concrete spawn on a fresh
two-worker pool and one concrete join both leave the thread list as it
was. -/
theorem pool_threads_fixed_witness :
    MiniPool.threads { senders := [true, true], threads := [0, 1], cursor := 1 } =
      (freshPool 2).threads ∧
    ((freshPool 2).joinAll (fun _ _ => true) 1).1.threads = (freshPool 2).threads := by
  have h := pool_threads_fixed (freshPool 2)
    { senders := [true, true], threads := [0, 1], cursor := 1 } 0 (fun _ _ => true) 1
  exact ⟨h.1 rfl, h.2.2⟩

/-- Claim C9: after `join_all` (which empties the senders but not the
threads), on a pool with at least one worker and the default balancer's
cursor in its reachable range, the balancer still returns an index below
the thread count, while the senders vector is empty — so the next
`spawn` panics with an out-of-bounds index, not with the delivery-error
panic, and certainly without returning an error value. -/
theorem spawn_after_join_all_panics (p : MiniPool)
    (finished : Nat → Nat → Bool) (fuel : Nat)
    (hn : 0 < p.threads.length) (hc : p.cursor ≤ p.threads.length) :
    (defaultBalancerIndex (p.joinAll finished fuel).1.cursor
        (p.joinAll finished fuel).1.threads.length).1 < p.threads.length ∧
    (p.joinAll finished fuel).1.spawn = PanicOr.panic "index out of bounds" := by
  have hidx : (defaultBalancerIndex p.cursor p.threads.length).1 <
      p.threads.length := by
    by_cases h : p.cursor = p.threads.length
    · simpa [defaultBalancerIndex, h] using hn
    · simpa [defaultBalancerIndex, h] using Nat.lt_of_le_of_ne hc h
  refine ⟨hidx, ?_⟩
  simp [MiniPool.spawn, MiniPool.joinAll, MiniPool.joinAllState]

/-- Witness for `spawn_after_join_all_panics` on a fresh one-worker
pool. -/
theorem spawn_after_join_all_panics_witness :
    (defaultBalancerIndex ((freshPool 1).joinAll (fun _ _ => false) 0).1.cursor
        ((freshPool 1).joinAll (fun _ _ => false) 0).1.threads.length).1 <
      (freshPool 1).threads.length ∧
    ((freshPool 1).joinAll (fun _ _ => false) 0).1.spawn =
      PanicOr.panic "index out of bounds" :=
  spawn_after_join_all_panics (freshPool 1) (fun _ _ => false) 0
    (by decide) (by decide)

/-- Claim C10: `build` does not validate the configured count — with an
explicit count of 0 (and successful parallelism detection) it returns
`Ok` with a pool of zero workers and zero senders; on that pool the
default balancer returns 0, which is not a member of the empty range
`[0, 0)`; and the first `spawn` panics indexing the empty senders
vector. -/
theorem build_zero_count_unvalidated (k : Nat) (f : Nat → Bool) :
    build (some 0) (some k) f =
      BuildResult.built { senders := [], threads := [], cursor := 0 } ∧
    (defaultBalancerIndex 0 0).1 = 0 ∧
    ¬ (defaultBalancerIndex 0 0).1 < 0 ∧
    MiniPool.spawn { senders := [], threads := [], cursor := 0 } =
      PanicOr.panic "index out of bounds" :=
  ⟨rfl, rfl, by decide, rfl⟩

/-- Witness for `build_zero_count_unvalidated` at a concrete detected
count and spawn oracle. -/
theorem build_zero_count_unvalidated_witness :
    build (some 0) (some 7) (fun _ => true) =
      BuildResult.built { senders := [], threads := [], cursor := 0 } ∧
    (defaultBalancerIndex 0 0).1 = 0 ∧
    ¬ (defaultBalancerIndex 0 0).1 < 0 ∧
    MiniPool.spawn { senders := [], threads := [], cursor := 0 } =
      PanicOr.panic "index out of bounds" :=
  build_zero_count_unvalidated 7 (fun _ => true)

end Minipool
